import Mathlib

/-!
Verification of the embedded access-control / engine-interlock / intrusion-alarm
coordination layer.

The Python modules are shallowly embedded:
* `F7` models `F7_auth_service.py` (centralized RFID access control);
* `Engine` models `F3_4_start_stop_engine.py` (engine start/stop interlock);
* `Door` models `F2_door.py` (servo door lock);
* `Alarm` models `F9_Intruder_detect.py` (IR intrusion monitor and modal alarm);
* `Keypad` models the bounded keypad event queue of `Integrate.py` / `g.py`.

Python credentials (UIDs) are either ints or strings; `Uid` is their sum.
`pyStr` models Python `str()` on a UID and `pyInt` models `int()` (which
succeeds on ints and on decimal-digit strings, and raises otherwise).
-/

inductive Uid where
  | num (n : Nat)
  | str (s : String)
deriving DecidableEq

/-- Model of Python `str(uid)`: ints print in decimal, strings are unchanged. -/
def pyStr : Uid → String
  | .num n => Nat.repr n
  | .str s => s

/-- Model of Python `int(uid)`: identity on ints, decimal parse on strings
(`None` models the `ValueError` branch). -/
def pyInt : Uid → Option Nat
  | .num n => some n
  | .str s => s.toNat?

/-- Model of Python `str.lower()`: lower-case every character. -/
def pyLower (s : String) : String :=
  ⟨s.data.map Char.toLower⟩

/-! ### Decimal-representation round trip

`Nat.repr` is built from `Nat.toDigitsCore`; to reason about membership of
`str(uid)` in an allow-list we need that distinct naturals have distinct
decimal strings.  We characterise `Nat.toDigitsCore` by a structural digit
function `decDigits` and give a left inverse `decVal`.
-/

/-- The decimal digit characters of `n`, most significant first. -/
def decDigits (n : Nat) : List Char :=
  if h : n < 10 then [Nat.digitChar n]
  else decDigits (n / 10) ++ [Nat.digitChar (n % 10)]
  decreasing_by exact Nat.div_lt_self (by omega) (by omega)

/-- Numeric value of a decimal digit character. -/
def digitVal (c : Char) : Nat :=
  if c = '0' then 0 else if c = '1' then 1 else if c = '2' then 2 else
  if c = '3' then 3 else if c = '4' then 4 else if c = '5' then 5 else
  if c = '6' then 6 else if c = '7' then 7 else if c = '8' then 8 else
  if c = '9' then 9 else 0

/-- Value of a decimal digit string, most significant first. -/
def decVal (l : List Char) : Nat :=
  l.foldl (fun a c => 10 * a + digitVal c) 0

theorem digitVal_digitChar {d : Nat} (h : d < 10) :
    digitVal (Nat.digitChar d) = d := by
  interval_cases d <;> decide

theorem decVal_append_digit (l : List Char) (c : Char) :
    decVal (l ++ [c]) = 10 * decVal l + digitVal c := by
  simp [decVal, List.foldl_append]

theorem decVal_decDigits (n : Nat) : decVal (decDigits n) = n := by
  induction n using Nat.strong_induction_on with
  | _ n ih =>
    rw [decDigits]
    split
    · next h =>
      simp [decVal, List.foldl, digitVal_digitChar h]
    · next h =>
      have hdiv : n / 10 < n := Nat.div_lt_self (by omega) (by omega)
      rw [decVal_append_digit, ih (n / 10) hdiv,
        digitVal_digitChar (Nat.mod_lt n (by omega))]
      omega

theorem toDigitsCore_eq_decDigits :
    ∀ (fuel n : Nat) (ds : List Char), n < fuel →
      Nat.toDigitsCore 10 fuel n ds = decDigits n ++ ds := by
  intro fuel
  induction fuel with
  | zero => intro n ds h; exact absurd h (Nat.not_lt_zero n)
  | succ fuel ih =>
    intro n ds h
    rw [Nat.toDigitsCore]
    by_cases h0 : n / 10 = 0
    · have hn : n < 10 := by omega
      rw [if_pos h0, decDigits, dif_pos hn, Nat.mod_eq_of_lt hn]
      simp
    · have hn : ¬ n < 10 := by
        intro hlt
        exact h0 (Nat.div_eq_of_lt hlt)
      have hfuel : n / 10 < fuel := by
        have : n / 10 < n := Nat.div_lt_self (by omega) (by omega)
        omega
      rw [if_neg h0, ih (n / 10) (Nat.digitChar (n % 10) :: ds) hfuel]
      conv_rhs => rw [decDigits]
      rw [dif_neg hn]
      simp

theorem repr_eq_decDigits (n : Nat) :
    Nat.repr n = (decDigits n).asString := by
  rw [Nat.repr, Nat.toDigits,
    toDigitsCore_eq_decDigits (n + 1) n [] (Nat.lt_succ_self n)]
  simp

theorem natRepr_injective {m n : Nat} (h : Nat.repr m = Nat.repr n) : m = n := by
  rw [repr_eq_decDigits, repr_eq_decDigits] at h
  have hdig : decDigits m = decDigits n := by
    have := congrArg String.data h
    simpa [List.asString] using this
  calc m = decVal (decDigits m) := (decVal_decDigits m).symm
    _ = decVal (decDigits n) := by rw [hdig]
    _ = n := decVal_decDigits n

/-! ### F7_auth_service.py — centralized RFID access control -/

namespace F7

/-- `_normalize_uids`: each UID becomes its `int()` form when that parses,
its `str()` form otherwise (set semantics modelled by list membership). -/
def normalize_uids (uids : List Uid) : List Uid :=
  uids.map (fun u => match pyInt u with
    | some n => Uid.num n
    | none => Uid.str (pyStr u))

/-- The body of the `set_allowed` loop: store both int and str forms of a
normalized UID (the `int()` form only when it parses). -/
def bothForms (u : Uid) : List Uid :=
  match pyInt u with
  | some n => [Uid.num n, Uid.str (pyStr u)]
  | none => [Uid.str (pyStr u)]

/-- `set_allowed`: normalize, then store both int and str forms in
`g.rfid_allowed_uids`. -/
def set_allowed (uids : List Uid) : List Uid :=
  (normalize_uids uids).flatMap bothForms

/-- The three project tags hard-coded in `init`. -/
def default_list : List Uid :=
  [Uid.num 966206689390, Uid.num 470912245720, Uid.num 988692462534]

/-- `init`: resolve the allow-list argument against `g.rfid_allowed_uids`
(`none` models both "attribute missing" and Python `None`; the empty list is
falsy, so `or default_list` also replaces it), then `set_allowed`.
Returns the resulting `g.rfid_allowed_uids`. -/
def initAllowed (arg : Option (List Uid)) (gv : Option (List Uid)) : List Uid :=
  let chosen :=
    match arg with
    | some l => l
    | none =>
      match gv with
      | none => default_list
      | some [] => default_list
      | some l => l
  set_allowed chosen

/-- `is_allowed`: membership of the UID or of its `str()` form in
`g.rfid_allowed_uids` (`none` and the empty list both give `[]`). -/
def is_allowed (gv : Option (List Uid)) (uid : Uid) : Bool :=
  let allowed := gv.getD []
  allowed.contains uid || allowed.contains (Uid.str (pyStr uid))

end F7

/-! ### F3_4_start_stop_engine.py — engine start/stop interlock -/

namespace Engine

/-- Module-level state of `F3_4_start_stop_engine.py`
(`_engine_running`, `_require_rfid_each_start`, `_allowed_uids`;
`none` models `_allowed_uids is None`, i.e. open mode). -/
structure State where
  engine_running : Bool
  require_rfid_each_start : Bool
  allowed_uids : Option (List Uid)
deriving DecidableEq

/-- Outcome of one `rfid.read_id()` call: a UID, or a raised hardware
exception (there is no try/except around this call in `_authenticate_rfid`). -/
inductive ReadResult where
  | ok (uid : Uid)
  | fault
deriving DecidableEq

/-- The allow test inside `_authenticate_rfid`:
`_allowed_uids is None or (uid in _allowed_uids) or (str(uid) in _allowed_uids)`. -/
def uidAllowed (allowed : Option (List Uid)) (uid : Uid) : Bool :=
  match allowed with
  | none => true
  | some l => l.contains uid || l.contains (Uid.str (pyStr uid))

/-- `_authenticate_rfid`: auto-pass when `_require_rfid_each_start` is false
(no read happens); otherwise one blocking read — an exception from the reader
propagates (`Except.error`), else the allow test decides. -/
def authenticate_rfid (st : State) (r : ReadResult) : Except Unit Bool :=
  if !st.require_rfid_each_start then .ok true
  else
    match r with
    | .fault => .error ()
    | .ok uid => .ok (uidAllowed st.allowed_uids uid)

/-- `_wait_for_switch_on` over a finite trace of `read_slide_switch()`
values: scans until a reading equals 1; `false` means the trace was
exhausted while the code is still busy-waiting. -/
def wait_for_switch_on : List Nat → Bool
  | [] => false
  | r :: rest => if r = 1 then true else wait_for_switch_on rest

/-- How a call to `start_engine` ends within the given traces:
it returns (with the new module state, its boolean result, and the
`set_motor_speed` commands it issued), or it is still blocked busy-waiting
for the switch, or a reader exception propagated out of it. -/
inductive Outcome where
  | returned (st : State) (success : Bool) (motorCmds : List Nat)
  | blocked (st : State)
  | raised (st : State)
deriving DecidableEq

/-- `start_engine`, evaluated against one RFID read outcome and a finite
trace of slide-switch readings. -/
def start_engine (st : State) (r : ReadResult) (sw : List Nat) : Outcome :=
  if st.engine_running then .returned st true []
  else
    match authenticate_rfid st r with
    | .error _ => .raised st
    | .ok false => .returned st false []
    | .ok true =>
      if wait_for_switch_on sw then
        .returned { st with engine_running := true } true [100]
      else
        .blocked st

/-- `stop_engine`: returns the new state, the boolean result (always true),
and the motor commands issued. -/
def stop_engine (st : State) : State × Bool × List Nat :=
  if !st.engine_running then (st, true, [])
  else ({ st with engine_running := false }, true, [0])

/-- `enforce_switch_safety`, evaluated at one slide-switch reading. -/
def enforce_switch_safety (st : State) (swRead : Nat) : State × Bool × List Nat :=
  if st.engine_running ∧ swRead = 0 then
    let r := stop_engine st
    (r.1, false, r.2.2)
  else
    (st, true, [])

end Engine

/-! ### F2_door.py — servo door lock -/

namespace Door

/-- `_clamp_angle`: `float(a)` with the `except` branch giving `0.0`
(modelled by `none`), then clamping into `[0, 180]`. -/
def clamp_angle (a : Option ℚ) : ℚ :=
  max 0 (min 180 (a.getD 0))

/-- Door state shared through `g`: `locked`, `lock_angle`, `unlock_angle`. -/
structure State where
  locked : Bool
  lock_angle : ℚ
  unlock_angle : ℚ
deriving DecidableEq

/-- Outcome of one `hal_servo.set_servo_position` call. -/
inductive ServoResult where
  | ok
  | fault
deriving DecidableEq

/-- `lock()`: set `g.locked = True` then `_apply_servo()`; a servo exception
is caught and reported on the LCD. Returns the state and whether a servo
error was reported. -/
def lock (st : State) (r : ServoResult) : State × Bool :=
  ({ st with locked := true }, r = .fault)

/-- `unlock()`: set `g.locked = False` then `_apply_servo()`. -/
def unlock (st : State) (r : ServoResult) : State × Bool :=
  ({ st with locked := false }, r = .fault)

/-- `toggle_lock()`: unlock if locked, else lock. -/
def toggle_lock (st : State) (r : ServoResult) : State × Bool :=
  if st.locked then unlock st r else lock st r

/-- `init`: clamp and store both angles, set `locked` from
`str(default_state).lower() == "locked"`. -/
def init (lock_angle unlock_angle : Option ℚ) (default_state : String) : State :=
  { locked := pyLower default_state = "locked"
    lock_angle := clamp_angle lock_angle
    unlock_angle := clamp_angle unlock_angle }

/-- `set_angles`: clamp and store both angles, keep `locked`. -/
def set_angles (st : State) (lock_angle unlock_angle : Option ℚ) : State :=
  { st with
    lock_angle := clamp_angle lock_angle
    unlock_angle := clamp_angle unlock_angle }

end Door

/-! ### F9_Intruder_detect.py — IR intrusion monitor and modal alarm -/

namespace Alarm

/-- Module/shared state read by `monitor_ir_and_trigger`:
`g.alarm_active`, `g.locked`, `g.ir_last_state` (None = unknown baseline),
`g.alarm_trigger_edge`, `g.alarm_ir_hold_ms`. -/
structure State where
  alarm_active : Bool
  locked : Bool
  ir_last_state : Option Bool
  trigger_edge : String
  hold_ms : Nat
deriving DecidableEq

/-- The defaults `init` installs when the `g` attribute is missing. -/
def initEdge (gv : Option String) : String := gv.getD "falling"

/-- Default debounce/confirm hold installed by `init` (ms). -/
def initHold (gv : Option Nat) : Nat := gv.getD 60

/-- `_edge_should_trigger`: compare a (prev, cur) pair against the
configured edge policy (`str(...).lower()`). -/
def edge_should_trigger (edge : String) (prev cur : Bool) : Bool :=
  if pyLower edge = "rising" then !prev && cur
  else if pyLower edge = "falling" then prev && !cur
  else prev != cur

/-- `monitor_ir_and_trigger`, evaluated at up to two `_read_ir()` outcomes:
`r1` is the first sample (`none` = read failure), `r2` the re-sample taken
after the debounce sleep when the first pair matched the edge.  Returns the
new state and whether `run_alarm_modal()` was invoked (the modal itself is
modelled separately; the `g.ir_last_state = cur` assignment after it returns
is included here). -/
def monitor_ir_and_trigger (st : State) (r1 r2 : Option Bool) : State × Bool :=
  if st.alarm_active then (st, false)
  else if !st.locked then ({ st with ir_last_state := r1 }, false)
  else
    match r1 with
    | none => (st, false)
    | some cur =>
      match st.ir_last_state with
      | none => ({ st with ir_last_state := some cur }, false)
      | some prev =>
        if edge_should_trigger st.trigger_edge prev cur then
          match r2 with
          | some confirm =>
            if confirm = cur && edge_should_trigger st.trigger_edge prev confirm then
              ({ st with ir_last_state := some cur }, true)
            else
              ({ st with ir_last_state := some cur }, false)
          | none => ({ st with ir_last_state := some cur }, false)
        else
          ({ st with ir_last_state := some cur }, false)

/-- Configuration of the modal's credential check: whether `_rfid` is a
live reader handle, and `_allowed_uids` (`none` = open mode). -/
structure ModalCfg where
  reader : Bool
  allowed : Option (List Uid)
deriving DecidableEq

/-- One iteration's worth of reader behaviour inside `_rfid_ok_blocking`:
the blocking `read_id()` either yields a UID or raises (caught inside). -/
inductive RfidEvent where
  | fault
  | read (uid : Uid)
deriving DecidableEq

/-- `_rfid_ok_blocking`: fail when the reader is missing, fail on a caught
read exception, pass any UID in open mode, else the allow-list test. -/
def rfid_ok_blocking (cfg : ModalCfg) (e : RfidEvent) : Bool :=
  if !cfg.reader then false
  else
    match e with
    | .fault => false
    | .read uid =>
      match cfg.allowed with
      | none => true
      | some l => l.contains uid || l.contains (Uid.str (pyStr uid))

/-- Result of running the alarm modal over a finite event trace. -/
structure ModalResult where
  cleared : Bool
  alarm_active : Bool
  buzzer : Bool
deriving DecidableEq

/-- `run_alarm_modal` over a finite trace of reader events: on entry the
alarm is Active with the buzzer asserted; each loop iteration calls
`_rfid_ok_blocking` and exits only when it returns True, whereupon the
`finally` block de-asserts the buzzer and clears `g.alarm_active`.
An exhausted trace means the loop is still retrying (Active, buzzing).
When the reader is missing, `_rfid_ok_blocking` returns False without
consuming a read; the trace then stands for successive loop iterations. -/
def run_alarm_modal (cfg : ModalCfg) : List RfidEvent → ModalResult
  | [] => ⟨false, true, true⟩
  | e :: rest =>
    if rfid_ok_blocking cfg e then ⟨true, false, false⟩
    else run_alarm_modal cfg rest

/-- Allow-list resolution in `init`: replace a `None` argument by
`g.rfid_allowed_uids` when that is set; then `set(x) if x else None`
(so `None` and the empty list both give open mode). -/
def initAllowed (arg : Option (List Uid)) (gv : Option (List Uid)) : Option (List Uid) :=
  let a :=
    match arg, gv with
    | none, some l => some l
    | _, _ => arg
  match a with
  | none => none
  | some [] => none
  | some l => some l

end Alarm

/-! ### Integrate.py / g.py — bounded keypad event queue (capacity 64) -/

namespace Keypad

/-- `key_pressed`: `put_nowait` into the capacity-64 queue; on `queue.Full`,
`get_nowait` evicts the oldest entry, then the put is retried.  The queue is
a FIFO list, oldest first; the key has already been passed through `str`. -/
def key_pressed (q : List String) (k : String) : List String :=
  if q.length < 64 then q ++ [k]
  else q.drop 1 ++ [k]

/-- Enqueue a whole sequence of key events in order. -/
def enqueue_all (q : List String) (ks : List String) : List String :=
  ks.foldl key_pressed q

/-- The last `n` entries of a list. -/
def lastN (n : Nat) (l : List String) : List String :=
  l.drop (l.length - n)

end Keypad

/-! ## Claim theorems -/

/-- C6: `toggle_lock()` always flips the logical locked state, including when
the servo actuator command raises a fault: the actuator error is caught and
reported, and the new logical state is kept, never rolled back. -/
theorem C6_toggle_lock_always_flips (st : Door.State) (r : Door.ServoResult) :
    (Door.toggle_lock st r).1.locked = !st.locked ∧
    (Door.toggle_lock st r).1.lock_angle = st.lock_angle ∧
    (Door.toggle_lock st r).1.unlock_angle = st.unlock_angle ∧
    (Door.toggle_lock st r).2 = decide (r = Door.ServoResult.fault) := by
  unfold Door.toggle_lock Door.unlock Door.lock
  by_cases h : st.locked <;> simp [h]

/-- C7: after every call to `init` or `set_angles`, with any inputs, the
stored lock angle and unlock angle lie in [0,180]; out-of-range values are
clamped to the nearest bound rather than rejected. -/
theorem C7_angles_clamped (la ua : Option ℚ) (ds : String) (st : Door.State) :
    (0 ≤ (Door.init la ua ds).lock_angle ∧ (Door.init la ua ds).lock_angle ≤ 180 ∧
      0 ≤ (Door.init la ua ds).unlock_angle ∧ (Door.init la ua ds).unlock_angle ≤ 180) ∧
    (0 ≤ (Door.set_angles st la ua).lock_angle ∧
      (Door.set_angles st la ua).lock_angle ≤ 180 ∧
      0 ≤ (Door.set_angles st la ua).unlock_angle ∧
      (Door.set_angles st la ua).unlock_angle ≤ 180) ∧
    (∀ a : ℚ, a < 0 → Door.clamp_angle (some a) = 0) ∧
    (∀ a : ℚ, 180 < a → Door.clamp_angle (some a) = 180) ∧
    (∀ a : ℚ, 0 ≤ a → a ≤ 180 → Door.clamp_angle (some a) = a) := by
  have hlo : ∀ x : Option ℚ, 0 ≤ Door.clamp_angle x := fun x => le_max_left 0 _
  have hhi : ∀ x : Option ℚ, Door.clamp_angle x ≤ 180 := by
    intro x
    exact max_le (by norm_num) (min_le_left 180 _)
  refine ⟨⟨hlo la, hhi la, hlo ua, hhi ua⟩, ⟨hlo la, hhi la, hlo ua, hhi ua⟩, ?_, ?_, ?_⟩
  · intro a ha
    have h1 : min (180 : ℚ) a = a := min_eq_right (by linarith)
    simp [Door.clamp_angle, h1, max_eq_left ha.le]
  · intro a ha
    have h1 : min (180 : ℚ) a = 180 := min_eq_left ha.le
    simp [Door.clamp_angle, h1]
  · intro a h0 h180
    simp [Door.clamp_angle, min_eq_right h180, max_eq_right h0]

/-- C7 witness: the theorem applied at concrete inputs. -/
theorem C7_angles_clamped_witness :
    Door.clamp_angle (some (-5)) = 0 ∧ Door.clamp_angle (some 200) = 180 ∧
    Door.clamp_angle (some 90) = 90 ∧ 0 ≤ (Door.init (some 200) none "locked").lock_angle :=
  ⟨(C7_angles_clamped none none "locked" ⟨true, 0, 90⟩).2.2.1 (-5) (by norm_num),
   (C7_angles_clamped none none "locked" ⟨true, 0, 90⟩).2.2.2.1 200 (by norm_num),
   (C7_angles_clamped none none "locked" ⟨true, 0, 90⟩).2.2.2.2 90 (by norm_num) (by norm_num),
   (C7_angles_clamped (some 200) none "locked" ⟨true, 0, 90⟩).1.1⟩

/-- C8: `start_engine()` is idempotent when the engine is already Running
(success, no re-authentication — the result ignores the reader and the
switch — and no motor command), `stop_engine()` is idempotent when already
Stopped, and a second application of either operation from its own
post-state is a no-op. -/
theorem C8_start_stop_idempotent (st st2 : Engine.State) (r r2 : Engine.ReadResult)
    (sw sw2 : List Nat) (cmds : List Nat) :
    (st.engine_running = true →
      Engine.start_engine st r sw = Engine.Outcome.returned st true []) ∧
    (st.engine_running = false → Engine.stop_engine st = (st, true, [])) ∧
    (Engine.stop_engine (Engine.stop_engine st).1 = ((Engine.stop_engine st).1, true, [])) ∧
    (Engine.start_engine st r sw = Engine.Outcome.returned st2 true cmds →
      Engine.start_engine st2 r2 sw2 = Engine.Outcome.returned st2 true []) := by
  refine ⟨?_, ?_, ?_, ?_⟩
  · intro h
    simp [Engine.start_engine, h]
  · intro h
    simp [Engine.stop_engine, h]
  · by_cases h : st.engine_running <;> simp [Engine.stop_engine, h]
  · intro h
    by_cases hrun : st.engine_running
    · simp [Engine.start_engine, hrun] at h
      simp [Engine.start_engine, h.1 ▸ hrun, h.1]
    · simp only [Engine.start_engine, hrun, if_neg Bool.false_ne_true] at h
      cases hauth : Engine.authenticate_rfid st r with
      | error e => simp [hauth] at h
      | ok b =>
        cases b with
        | false => simp [hauth] at h
        | true =>
          simp only [hauth] at h
          by_cases hw : Engine.wait_for_switch_on sw
          · simp only [hw, if_true] at h
            injection h with hst hsucc hcmds
            simp [Engine.start_engine, ← hst]
          · simp [hw] at h

/-- C8 witness: the theorem applied at concrete inputs, including a second
start from the post-state of a successful start. -/
theorem C8_start_stop_idempotent_witness :
    Engine.start_engine ⟨true, true, none⟩ Engine.ReadResult.fault [] =
      Engine.Outcome.returned ⟨true, true, none⟩ true [] ∧
    Engine.stop_engine ⟨false, true, none⟩ = (⟨false, true, none⟩, true, []) ∧
    Engine.start_engine ⟨true, false, none⟩ Engine.ReadResult.fault [0] =
      Engine.Outcome.returned ⟨true, false, none⟩ true [] :=
  ⟨(C8_start_stop_idempotent ⟨true, true, none⟩ ⟨true, true, none⟩
      Engine.ReadResult.fault Engine.ReadResult.fault [] [] []).1 rfl,
   (C8_start_stop_idempotent ⟨false, true, none⟩ ⟨false, true, none⟩
      Engine.ReadResult.fault Engine.ReadResult.fault [] [] []).2.1 rfl,
   (C8_start_stop_idempotent ⟨false, false, none⟩ ⟨true, false, none⟩
      (Engine.ReadResult.ok (Uid.num 5)) Engine.ReadResult.fault [1] [0] [100]).2.2.2
     (by decide)⟩

/-- C9: `enforce_switch_safety()` invoked while Running with the switch
reading OFF forces exactly one transition to Stopped (commanding zero motor
output) and returns False; in every other case it leaves the state unchanged
and returns True. -/
theorem C9_enforce_switch_safety (st : Engine.State) (swRead : Nat) :
    (st.engine_running = true → swRead = 0 →
      Engine.enforce_switch_safety st swRead =
        ({ st with engine_running := false }, false, [0])) ∧
    (st.engine_running = false ∨ swRead ≠ 0 →
      Engine.enforce_switch_safety st swRead = (st, true, [])) := by
  constructor
  · intro hrun hsw
    simp [Engine.enforce_switch_safety, Engine.stop_engine, hrun, hsw]
  · intro h
    rcases h with h | h
    · simp [Engine.enforce_switch_safety, h]
    · by_cases hrun : st.engine_running <;>
        simp [Engine.enforce_switch_safety, hrun, h]

/-- C9 witness: the theorem applied at concrete inputs for both cases. -/
theorem C9_enforce_switch_safety_witness :
    Engine.enforce_switch_safety ⟨true, true, none⟩ 0 =
      (⟨false, true, none⟩, false, [0]) ∧
    Engine.enforce_switch_safety ⟨true, true, none⟩ 1 = (⟨true, true, none⟩, true, []) ∧
    Engine.enforce_switch_safety ⟨false, true, none⟩ 0 = (⟨false, true, none⟩, true, []) :=
  ⟨(C9_enforce_switch_safety ⟨true, true, none⟩ 0).1 rfl rfl,
   (C9_enforce_switch_safety ⟨true, true, none⟩ 1).2 (Or.inr (by decide)),
   (C9_enforce_switch_safety ⟨false, true, none⟩ 0).2 (Or.inl rfl)⟩

theorem key_pressed_eq_lastN (q : List String) (k : String) (h : q.length ≤ 64) :
    Keypad.key_pressed q k = Keypad.lastN 64 (q ++ [k]) := by
  unfold Keypad.key_pressed Keypad.lastN
  by_cases hlt : q.length < 64
  · have h0 : (q ++ [k]).length - 64 = 0 := by
      simp only [List.length_append, List.length_cons, List.length_nil]
      omega
    rw [if_pos hlt, h0, List.drop_zero]
  · have h64 : q.length = 64 := by omega
    have h1 : (q ++ [k]).length - 64 = 1 := by
      simp only [List.length_append, List.length_cons, List.length_nil]
      omega
    rw [if_neg hlt, h1, List.drop_append_of_le_length (by omega)]

theorem lastN_length_le (l : List String) : (Keypad.lastN 64 l).length ≤ 64 := by
  simp only [Keypad.lastN, List.length_drop]
  omega

set_option maxRecDepth 4000 in
theorem lastN_append_one (ks : List String) (k : String) :
    Keypad.lastN 64 (Keypad.lastN 64 ks ++ [k]) = Keypad.lastN 64 (ks ++ [k]) := by
  unfold Keypad.lastN
  rw [← List.drop_append_of_le_length (by omega : ks.length - 64 ≤ ks.length)]
  rw [List.drop_drop]
  congr 1
  simp only [List.length_append, List.length_drop, List.length_cons, List.length_nil]
  omega

theorem enqueue_all_eq_lastN (ks : List String) :
    Keypad.enqueue_all [] ks = Keypad.lastN 64 ks := by
  induction ks using List.reverseRecOn with
  | nil => rfl
  | append_singleton ks k ih =>
    rw [Keypad.enqueue_all, List.foldl_append]
    simp only [List.foldl_cons, List.foldl_nil]
    rw [show List.foldl Keypad.key_pressed [] ks = Keypad.enqueue_all [] ks from rfl, ih,
      key_pressed_eq_lastN _ _ (lastN_length_le ks), lastN_append_one]

/-- C5: for the bounded key-event queue of capacity 64, enqueuing into a full
queue evicts the single oldest entry and admits the newest; after enqueuing
65 events in sequence, the queue holds exactly the latest 64 events in their
original FIFO order. -/
theorem C5_queue_eviction (q : List String) (k : String) (ks : List String) :
    (q.length = 64 → Keypad.key_pressed q k = q.drop 1 ++ [k]) ∧
    (ks.length = 65 → Keypad.enqueue_all [] ks = ks.drop 1 ∧ (ks.drop 1).length = 64) := by
  constructor
  · intro h
    unfold Keypad.key_pressed
    rw [if_neg (by omega)]
  · intro h
    constructor
    · rw [enqueue_all_eq_lastN]
      unfold Keypad.lastN
      rw [h]
    · simp only [List.length_drop, h]

/-- C5 witness: the theorem applied to a concrete full queue and a concrete
sequence of 65 events. -/
theorem C5_queue_eviction_witness :
    Keypad.key_pressed ((List.range 64).map (fun n => Nat.repr n)) "new" =
      ((List.range 64).map (fun n => Nat.repr n)).drop 1 ++ ["new"] ∧
    Keypad.enqueue_all [] ((List.range 65).map (fun n => Nat.repr n)) =
      ((List.range 65).map (fun n => Nat.repr n)).drop 1 :=
  ⟨(C5_queue_eviction ((List.range 64).map (fun n => Nat.repr n)) "new"
      ((List.range 65).map (fun n => Nat.repr n))).1 (by simp),
   ((C5_queue_eviction ((List.range 64).map (fun n => Nat.repr n)) "new"
      ((List.range 65).map (fun n => Nat.repr n))).2 (by simp)).1⟩

/-- C2: for a single intrusion-monitor poll with the alarm not already
active, the alarm modal is triggered iff the door is locked, the baseline is
known, the (baseline, current) pair matches the configured edge policy, and
the debounce re-sample still equals the candidate value with the edge
condition still holding against the original baseline; otherwise no trigger
occurs, with the baseline updated on every successful read; while unlocked
or on a read failure no trigger occurs; the installed defaults are the
Falling (true→false) edge and a 60 ms hold. -/
theorem C2_monitor_trigger (st : Alarm.State) (r1 r2 : Option Bool)
    (hact : st.alarm_active = false) :
    ((Alarm.monitor_ir_and_trigger st r1 r2).2 = true ↔
      (st.locked = true ∧ ∃ prev cur confirm,
        st.ir_last_state = some prev ∧ r1 = some cur ∧ r2 = some confirm ∧
        Alarm.edge_should_trigger st.trigger_edge prev cur = true ∧
        confirm = cur ∧
        Alarm.edge_should_trigger st.trigger_edge prev confirm = true)) ∧
    (st.locked = false →
      Alarm.monitor_ir_and_trigger st r1 r2 = ({ st with ir_last_state := r1 }, false)) ∧
    (st.locked = true → r1 = none →
      Alarm.monitor_ir_and_trigger st r1 r2 = (st, false)) ∧
    (st.locked = true → ∀ cur, r1 = some cur →
      (Alarm.monitor_ir_and_trigger st r1 r2).1.ir_last_state = some cur) ∧
    Alarm.initEdge none = "falling" ∧ Alarm.initHold none = 60 ∧
    (∀ p c : Bool, Alarm.edge_should_trigger (Alarm.initEdge none) p c = (p && !c)) := by
  refine ⟨?_, ?_, ?_, ?_, rfl, rfl, fun p c => by cases p <;> cases c <;> rfl⟩
  · by_cases hl : st.locked
    · cases hr1 : r1 with
      | none => simp [Alarm.monitor_ir_and_trigger, hact, hl, hr1]
      | some cur =>
        cases hlast : st.ir_last_state with
        | none => simp [Alarm.monitor_ir_and_trigger, hact, hl, hr1, hlast]
        | some prev =>
          by_cases he : Alarm.edge_should_trigger st.trigger_edge prev cur
          · cases hr2 : r2 with
            | none => simp [Alarm.monitor_ir_and_trigger, hact, hl, hr1, hlast, hr2, he]
            | some confirm =>
              by_cases hc : confirm = cur ∧
                  Alarm.edge_should_trigger st.trigger_edge prev confirm = true
              · simp [Alarm.monitor_ir_and_trigger, hact, hl, hr1, hlast, hr2, he,
                  hc.1, hc.2]
              · rw [not_and_or] at hc
                rcases hc with hc | hc
                · simp [Alarm.monitor_ir_and_trigger, hact, hl, hr1, hlast, hr2, he, hc]
                · simp only [Bool.not_eq_true] at hc
                  simp [Alarm.monitor_ir_and_trigger, hact, hl, hr1, hlast, hr2, he, hc]
          · simp [Alarm.monitor_ir_and_trigger, hact, hl, hr1, hlast, he]
    · simp [Alarm.monitor_ir_and_trigger, hact, hl]
  · intro hl
    simp [Alarm.monitor_ir_and_trigger, hact, hl]
  · intro hl hr1
    simp [Alarm.monitor_ir_and_trigger, hact, hl, hr1]
  · intro hl cur hr1
    cases hlast : st.ir_last_state with
    | none => simp [Alarm.monitor_ir_and_trigger, hact, hl, hr1, hlast]
    | some prev =>
      by_cases he : Alarm.edge_should_trigger st.trigger_edge prev cur
      · cases hr2 : r2 with
        | none => simp [Alarm.monitor_ir_and_trigger, hact, hl, hr1, hlast, hr2, he]
        | some confirm =>
          by_cases hc : confirm = cur ∧
              Alarm.edge_should_trigger st.trigger_edge prev confirm = true
          · simp [Alarm.monitor_ir_and_trigger, hact, hl, hr1, hlast, hr2, he, hc.1, hc.2]
          · rw [not_and_or] at hc
            rcases hc with hc | hc
            · simp [Alarm.monitor_ir_and_trigger, hact, hl, hr1, hlast, hr2, he, hc]
            · simp only [Bool.not_eq_true] at hc
              simp [Alarm.monitor_ir_and_trigger, hact, hl, hr1, hlast, hr2, he, hc]
      · simp [Alarm.monitor_ir_and_trigger, hact, hl, hr1, hlast, he]

/-- C2 witness: the theorem applied at a confirmed falling edge while
locked, and at an unlocked poll. -/
theorem C2_monitor_trigger_witness :
    (Alarm.monitor_ir_and_trigger ⟨false, true, some true, "falling", 60⟩
      (some false) (some false)).2 = true ∧
    Alarm.monitor_ir_and_trigger ⟨false, false, some true, "falling", 60⟩
      (some true) none =
      ({ Alarm.State.mk false false (some true) "falling" 60 with
          ir_last_state := some true }, false) :=
  ⟨(C2_monitor_trigger ⟨false, true, some true, "falling", 60⟩
      (some false) (some false) rfl).1.mpr
      ⟨rfl, true, false, false, rfl, rfl, rfl, by decide, rfl, by decide⟩,
   (C2_monitor_trigger ⟨false, false, some true, "falling", 60⟩
      (some true) none rfl).2.1 rfl⟩

theorem run_alarm_modal_cleared_iff (cfg : Alarm.ModalCfg) (evs : List Alarm.RfidEvent) :
    (Alarm.run_alarm_modal cfg evs).cleared = true ↔
      ∃ e ∈ evs, Alarm.rfid_ok_blocking cfg e = true := by
  induction evs with
  | nil => simp [Alarm.run_alarm_modal]
  | cons e rest ih =>
    by_cases h : Alarm.rfid_ok_blocking cfg e
    · simp [Alarm.run_alarm_modal, h]
    · simp [Alarm.run_alarm_modal, h, ih]

theorem run_alarm_modal_flags (cfg : Alarm.ModalCfg) (evs : List Alarm.RfidEvent) :
    (Alarm.run_alarm_modal cfg evs).alarm_active = !(Alarm.run_alarm_modal cfg evs).cleared ∧
    (Alarm.run_alarm_modal cfg evs).buzzer = !(Alarm.run_alarm_modal cfg evs).cleared := by
  induction evs with
  | nil => simp [Alarm.run_alarm_modal]
  | cons e rest ih =>
    by_cases h : Alarm.rfid_ok_blocking cfg e <;> simp [Alarm.run_alarm_modal, h, ih]

theorem run_alarm_modal_all_fault (cfg : Alarm.ModalCfg) (evs : List Alarm.RfidEvent)
    (hall : ∀ e ∈ evs, e = Alarm.RfidEvent.fault) :
    Alarm.run_alarm_modal cfg evs = ⟨false, true, true⟩ := by
  induction evs with
  | nil => rfl
  | cons e rest ih =>
    have he := hall e (List.mem_cons_self e rest)
    subst he
    have hf : Alarm.rfid_ok_blocking cfg Alarm.RfidEvent.fault = false := by
      unfold Alarm.rfid_ok_blocking
      by_cases hr : cfg.reader <;> simp [hr]
    simp only [Alarm.run_alarm_modal, hf, Bool.false_eq_true, if_false]
    exact ih (fun e h => hall e (List.mem_cons_of_mem _ h))

/-- C3: the alarm modal exits its Active state iff the blocking credential
check returns an allow-listed identifier; a reader fault during the modal is
fail-closed: the check returns failure, the alarm remains Active with the
buzzer asserted, and the modal retries, so a reader failure can never clear
the alarm. -/
theorem C3_alarm_modal_fail_closed (cfg : Alarm.ModalCfg) (l : List Uid)
    (evs : List Alarm.RfidEvent) (hr : cfg.reader = true) (ha : cfg.allowed = some l) :
    ((Alarm.run_alarm_modal cfg evs).cleared = true ↔
      ∃ uid, Alarm.RfidEvent.read uid ∈ evs ∧
        (l.contains uid || l.contains (Uid.str (pyStr uid))) = true) ∧
    Alarm.rfid_ok_blocking cfg Alarm.RfidEvent.fault = false ∧
    ((∀ e ∈ evs, e = Alarm.RfidEvent.fault) →
      Alarm.run_alarm_modal cfg evs = ⟨false, true, true⟩) ∧
    (Alarm.run_alarm_modal cfg evs).alarm_active = !(Alarm.run_alarm_modal cfg evs).cleared ∧
    (Alarm.run_alarm_modal cfg evs).buzzer = !(Alarm.run_alarm_modal cfg evs).cleared := by
  refine ⟨?_, by simp [Alarm.rfid_ok_blocking, hr], run_alarm_modal_all_fault cfg evs,
    (run_alarm_modal_flags cfg evs).1, (run_alarm_modal_flags cfg evs).2⟩
  rw [run_alarm_modal_cleared_iff]
  constructor
  · rintro ⟨e, hmem, hok⟩
    cases e with
    | fault => simp [Alarm.rfid_ok_blocking, hr] at hok
    | read uid =>
      refine ⟨uid, hmem, ?_⟩
      simpa [Alarm.rfid_ok_blocking, hr, ha] using hok
  · rintro ⟨uid, hmem, hok⟩
    refine ⟨Alarm.RfidEvent.read uid, hmem, ?_⟩
    simpa [Alarm.rfid_ok_blocking, hr, ha] using hok

/-- C3 witness: the theorem applied to a concrete reader-backed allow-list,
an event trace whose faults are skipped and whose allowed tap clears, and an
all-fault trace that leaves the alarm Active and buzzing. -/
theorem C3_alarm_modal_fail_closed_witness :
    ((Alarm.run_alarm_modal ⟨true, some [Uid.num 5]⟩
        [Alarm.RfidEvent.fault, Alarm.RfidEvent.read (Uid.num 7),
         Alarm.RfidEvent.read (Uid.num 5)]).cleared = true) ∧
    Alarm.run_alarm_modal ⟨true, some [Uid.num 5]⟩
        [Alarm.RfidEvent.fault, Alarm.RfidEvent.fault] = ⟨false, true, true⟩ :=
  ⟨(C3_alarm_modal_fail_closed ⟨true, some [Uid.num 5]⟩ [Uid.num 5]
      [Alarm.RfidEvent.fault, Alarm.RfidEvent.read (Uid.num 7),
       Alarm.RfidEvent.read (Uid.num 5)] rfl rfl).1.mpr
      ⟨Uid.num 5, by decide, by decide⟩,
   (C3_alarm_modal_fail_closed ⟨true, some [Uid.num 5]⟩ [Uid.num 5]
      [Alarm.RfidEvent.fault, Alarm.RfidEvent.fault] rfl rfl).2.2.1 (by decide)⟩

/-- C10: if the alarm module is initialized with no allow-list
(`allowed_uids=None` and `g.rfid_allowed_uids` unset or None), then while the
modal is Active any successfully read UID clears the alarm: the membership
check is skipped entirely. -/
theorem C10_open_mode_accepts_any (uid : Uid) (evs : List Alarm.RfidEvent) :
    Alarm.initAllowed none none = none ∧
    Alarm.rfid_ok_blocking ⟨true, Alarm.initAllowed none none⟩
      (Alarm.RfidEvent.read uid) = true ∧
    Alarm.run_alarm_modal ⟨true, Alarm.initAllowed none none⟩
      (Alarm.RfidEvent.read uid :: evs) = ⟨true, false, false⟩ := by
  refine ⟨rfl, rfl, ?_⟩
  simp [Alarm.run_alarm_modal, Alarm.rfid_ok_blocking, Alarm.initAllowed]

/-- C4: under the default configuration (no allow-list supplied to `init`,
`g.rfid_allowed_uids` left at its `None` value), the AccessControl allow-list
consists of exactly the three preconfigured identifiers 966206689390,
470912245720, 988692462534 (stored in both int and str form), and
`is_allowed(uid)` returns True exactly for those three UIDs, whether
presented in numeric or string form. -/
theorem C4_default_allowlist :
    F7.initAllowed none none =
      [Uid.num 966206689390, Uid.str "966206689390",
       Uid.num 470912245720, Uid.str "470912245720",
       Uid.num 988692462534, Uid.str "988692462534"] ∧
    (∀ n : Nat, F7.is_allowed (some (F7.initAllowed none none)) (Uid.num n) = true ↔
      (n = 966206689390 ∨ n = 470912245720 ∨ n = 988692462534)) ∧
    (∀ s : String, F7.is_allowed (some (F7.initAllowed none none)) (Uid.str s) = true ↔
      (s = "966206689390" ∨ s = "470912245720" ∨ s = "988692462534")) := by
  have hA : F7.initAllowed none none =
      [Uid.num 966206689390, Uid.str "966206689390",
       Uid.num 470912245720, Uid.str "470912245720",
       Uid.num 988692462534, Uid.str "988692462534"] := rfl
  refine ⟨hA, ?_, ?_⟩
  · intro n
    simp [F7.is_allowed, hA, pyStr]
    rintro (h | h | h)
    · exact Or.inl (natRepr_injective (h.trans (rfl : Nat.repr 966206689390 = "966206689390").symm))
    · exact Or.inr (Or.inl (natRepr_injective
        (h.trans (rfl : Nat.repr 470912245720 = "470912245720").symm)))
    · exact Or.inr (Or.inr (natRepr_injective
        (h.trans (rfl : Nat.repr 988692462534 = "988692462534").symm)))
  · intro s
    simp [F7.is_allowed, hA, pyStr]

/-- C1 counterexample: with an RFID-required configuration, a reader fault
during the credential check makes `start_engine` propagate the exception
(`Outcome.raised`) rather than return failure — the claim's "denied or
faults ... returns failure" does not hold for the fault case (the engine
state does remain Stopped). -/
theorem C1_counterexample :
    Engine.start_engine ⟨false, true, some [Uid.num 5]⟩ Engine.ReadResult.fault [1] =
      Engine.Outcome.raised ⟨false, true, some [Uid.num 5]⟩ ∧
    ∀ st b cmds,
      Engine.start_engine ⟨false, true, some [Uid.num 5]⟩ Engine.ReadResult.fault [1] ≠
        Engine.Outcome.returned st b cmds := by
  refine ⟨rfl, ?_⟩
  intro st b cmds h
  simp [Engine.start_engine, Engine.authenticate_rfid] at h

/-- C1 (amended): `start_engine` never reaches Running without an allowed
credential followed by an observed switch-ON, strictly in that order: a
denied credential returns failure with the state still Stopped regardless of
the switch trace; a reader fault propagates the exception (no failure
return) with the state still Stopped; an allowed credential with the switch
reading OFF throughout stays blocked waiting; and any return with the engine
Running implies the credential check passed and an ON reading was observed. -/
theorem C1_start_order (st : Engine.State) (r : Engine.ReadResult) (sw : List Nat)
    (hstop : st.engine_running = false) :
    (∀ uid, r = Engine.ReadResult.ok uid →
      Engine.uidAllowed st.allowed_uids uid = false →
      st.require_rfid_each_start = true →
      Engine.start_engine st r sw = Engine.Outcome.returned st false []) ∧
    (r = Engine.ReadResult.fault → st.require_rfid_each_start = true →
      Engine.start_engine st r sw = Engine.Outcome.raised st) ∧
    (Engine.authenticate_rfid st r = Except.ok true → (∀ x ∈ sw, x ≠ 1) →
      Engine.start_engine st r sw = Engine.Outcome.blocked st) ∧
    (∀ st2 b cmds, Engine.start_engine st r sw = Engine.Outcome.returned st2 b cmds →
      st2.engine_running = true →
      Engine.authenticate_rfid st r = Except.ok true ∧
        Engine.wait_for_switch_on sw = true) := by
  have hwait : (∀ x ∈ sw, x ≠ 1) → Engine.wait_for_switch_on sw = false := by
    intro hall
    induction sw with
    | nil => rfl
    | cons x rest ih =>
      have hx : x ≠ 1 := hall x (List.mem_cons_self x rest)
      simp only [Engine.wait_for_switch_on, if_neg hx]
      exact ih (fun y hy => hall y (List.mem_cons_of_mem _ hy))
  refine ⟨?_, ?_, ?_, ?_⟩
  · intro uid hr hdeny hreq
    subst hr
    simp [Engine.start_engine, Engine.authenticate_rfid, hstop, hreq, hdeny]
  · intro hr hreq
    subst hr
    simp [Engine.start_engine, Engine.authenticate_rfid, hstop, hreq]
  · intro hauth hall
    simp [Engine.start_engine, hstop, hauth, hwait hall]
  · intro st2 b cmds hret hrun2
    simp only [Engine.start_engine, hstop, Bool.false_eq_true, if_false] at hret
    cases hauth : Engine.authenticate_rfid st r with
    | error e => simp [hauth] at hret
    | ok pass =>
      cases pass with
      | false => 
        simp only [hauth] at hret
        injection hret with h1 h2 h3
        subst h1
        exact absurd hrun2 (by simp [hstop])
      | true =>
        refine ⟨rfl, ?_⟩
        by_cases hw : Engine.wait_for_switch_on sw
        · exact hw
        · simp [hauth, hw] at hret

/-- C1 witness: the amended theorem applied at concrete inputs — a denied
credential with the switch already ON, and an allowed credential with the
switch OFF throughout. -/
theorem C1_start_order_witness :
    Engine.start_engine ⟨false, true, some [Uid.num 5]⟩
      (Engine.ReadResult.ok (Uid.num 7)) [1] =
      Engine.Outcome.returned ⟨false, true, some [Uid.num 5]⟩ false [] ∧
    Engine.start_engine ⟨false, true, some [Uid.num 5]⟩
      (Engine.ReadResult.ok (Uid.num 5)) [0, 0] =
      Engine.Outcome.blocked ⟨false, true, some [Uid.num 5]⟩ :=
  ⟨(C1_start_order ⟨false, true, some [Uid.num 5]⟩
      (Engine.ReadResult.ok (Uid.num 7)) [1] rfl).1 (Uid.num 7) rfl (by decide) rfl,
   (C1_start_order ⟨false, true, some [Uid.num 5]⟩
      (Engine.ReadResult.ok (Uid.num 5)) [0, 0] rfl).2.2.1 rfl (by decide)⟩
